import Mathlib

/-
Verification of the signal-derivation and alert-classification engine of
src/v4.py (intraday multi-symbol trend monitor).

Conventions of the embedding:
- Prices, volumes and indicator values are rationals (ℚ).  Where the Python
  code can produce IEEE special values (NaN, ±inf) through pandas/numpy
  division, values are wrapped in the type `PF` below, whose arithmetic
  follows IEEE semantics on those special values.
- A pandas DataFrame is the structure `DF`: its five base columns plus the
  four derived columns that `analyze_stock` assigns in place (absent, i.e.
  `none`, on a freshly fetched frame).
- `len(df)` (the row count) is modelled by the length of the Close column.
-/

namespace TrendV4

set_option maxRecDepth 400000

/-- A pandas/numpy float as far as this program can observe it: an ordinary
(rational) value, NaN, or a signed infinity. -/
inductive PF where
  | nan : PF
  | pinf : PF
  | ninf : PF
  | val : ℚ → PF
deriving DecidableEq, Repr, BEq

def pfNeg : PF → PF
  | PF.nan => PF.nan
  | PF.pinf => PF.ninf
  | PF.ninf => PF.pinf
  | PF.val q => PF.val (-q)

def pfAdd : PF → PF → PF
  | PF.nan, _ => PF.nan
  | _, PF.nan => PF.nan
  | PF.pinf, PF.pinf => PF.pinf
  | PF.pinf, PF.ninf => PF.nan
  | PF.ninf, PF.pinf => PF.nan
  | PF.ninf, PF.ninf => PF.ninf
  | PF.pinf, PF.val _ => PF.pinf
  | PF.val _, PF.pinf => PF.pinf
  | PF.ninf, PF.val _ => PF.ninf
  | PF.val _, PF.ninf => PF.ninf
  | PF.val a, PF.val b => PF.val (a + b)

def pfSub (a b : PF) : PF := pfAdd a (pfNeg b)

/-- IEEE division (ℚ has a single zero, which plays the role of +0). -/
def pfDiv : PF → PF → PF
  | PF.nan, _ => PF.nan
  | _, PF.nan => PF.nan
  | PF.pinf, PF.pinf => PF.nan
  | PF.pinf, PF.ninf => PF.nan
  | PF.ninf, PF.pinf => PF.nan
  | PF.ninf, PF.ninf => PF.nan
  | PF.pinf, PF.val b => if b < 0 then PF.ninf else PF.pinf
  | PF.ninf, PF.val b => if b < 0 then PF.pinf else PF.ninf
  | PF.val _, PF.pinf => PF.val 0
  | PF.val _, PF.ninf => PF.val 0
  | PF.val a, PF.val b =>
      if b = 0 then (if a = 0 then PF.nan else if 0 < a then PF.pinf else PF.ninf)
      else PF.val (a / b)

/-- `x > c` on a float, as Python evaluates it: NaN compares False. -/
def pfGtQ (a : PF) (c : ℚ) : Bool :=
  match a with
  | PF.nan => false
  | PF.pinf => true
  | PF.ninf => false
  | PF.val q => decide (c < q)

/-- `x < c` on a float, as Python evaluates it: NaN compares False. -/
def pfLtQ (a : PF) (c : ℚ) : Bool :=
  match a with
  | PF.nan => false
  | PF.pinf => false
  | PF.ninf => true
  | PF.val q => decide (q < c)

/-- `Series.ewm(span, adjust=False).mean()`: seed is the first value,
alpha = 2/(span+1), recurrence y = alpha*x + (1-alpha)*y_prev. -/
def emaList (span : ℕ) (xs : List ℚ) : List ℚ :=
  match xs with
  | [] => []
  | x :: rest =>
      rest.scanl (fun acc y => (2 / ((span : ℚ) + 1)) * y + (1 - 2 / ((span : ℚ) + 1)) * acc) x

/-- `Series.rolling(window=w).mean()`: NaN until the window is filled, then
the simple average of the last w values. -/
def rollingMean (w : ℕ) (xs : List ℚ) : List PF :=
  (List.range xs.length).map (fun i =>
    if i + 1 < w then PF.nan
    else PF.val (((xs.take (i + 1)).drop (i + 1 - w)).sum / (w : ℚ)))

/-- `(delta.where(delta > 0, 0))` for delta = series.diff(): the positive
part of each close-to-close delta; the leading NaN of diff() compares False
against 0 and is replaced by 0. -/
def gainsOf (closes : List ℚ) : List ℚ :=
  match closes with
  | [] => []
  | _ :: rest => 0 :: (closes.zip rest).map (fun p => max (p.2 - p.1) 0)

/-- `(-delta.where(delta < 0, 0))`: the negative part of each delta. -/
def lossesOf (closes : List ℚ) : List ℚ :=
  match closes with
  | [] => []
  | _ :: rest => 0 :: (closes.zip rest).map (fun p => max (p.1 - p.2) 0)

/-- `100 - (100 / (1 + rs))` with rs = gain/loss, all in float arithmetic. -/
def rsiFromAvgs (g l : PF) : PF :=
  pfSub (PF.val 100) (pfDiv (PF.val 100) (pfAdd (PF.val 1) (pfDiv g l)))

/-- The average-gain column of `calculate_rsi`, read at index i. -/
def avgGainAt (closes : List ℚ) (i : ℕ) : PF :=
  (rollingMean 14 (gainsOf closes)).getD i PF.nan

/-- The average-loss column of `calculate_rsi`, read at index i. -/
def avgLossAt (closes : List ℚ) (i : ℕ) : PF :=
  (rollingMean 14 (lossesOf closes)).getD i PF.nan

/-- `calculate_rsi(series, period)` as a whole column. -/
def rsiSeries (period : ℕ) (closes : List ℚ) : List PF :=
  (List.range closes.length).map (fun i =>
    rsiFromAvgs ((rollingMean period (gainsOf closes)).getD i PF.nan)
      ((rollingMean period (lossesOf closes)).getD i PF.nan))

/-- Line 70: `prev['EMA_F'] <= prev['EMA_S'] and last['EMA_F'] > last['EMA_S']`. -/
def is_gold (pF pS cF cS : ℚ) : Bool :=
  decide (pF ≤ pS) && decide (cS < cF)

/-- Line 71: `prev['EMA_F'] >= prev['EMA_S'] and last['EMA_F'] < last['EMA_S']`. -/
def is_death (pF pS cF cS : ℚ) : Bool :=
  decide (pS ≤ pF) && decide (cF < cS)

inductive Crossover where
  | none : Crossover
  | golden : Crossover
  | death : Crossover
deriving DecidableEq, Repr, BEq

/-- The crossover event the if/elif chain of lines 74-79 recognises. -/
def crossoverOf (pF pS cF cS : ℚ) : Crossover :=
  if is_gold pF pS cF cS then Crossover.golden
  else if is_death pF pS cF cS then Crossover.death
  else Crossover.none

/-- The value of the `msg` string after lines 73-85 ("" / golden cross /
death cross / RSI overbought / RSI oversold). -/
inductive Msg where
  | stable : Msg
  | golden : Msg
  | death : Msg
  | overbought : Msg
  | oversold : Msg
deriving DecidableEq, Repr, BEq

/-- The value of `alert_level` ("success" / "warning" / "error"). -/
inductive AlertLevel where
  | success : AlertLevel
  | warning : AlertLevel
  | error : AlertLevel
deriving DecidableEq, Repr, BEq

/-- Lines 66-85: the if/elif chain that assigns `msg` and `alert_level`
from the crossover booleans, the VIX change and the last RSI value. -/
def signalOf (gold death : Bool) (vix_chg : ℚ) (rsi : PF) : Msg × AlertLevel :=
  if gold then
    (Msg.golden, if vix_chg < 0 then AlertLevel.error else AlertLevel.warning)
  else if death then (Msg.death, AlertLevel.error)
  else if pfGtQ rsi 75 then (Msg.overbought, AlertLevel.warning)
  else if pfLtQ rsi 25 then (Msg.oversold, AlertLevel.warning)
  else (Msg.stable, AlertLevel.success)

inductive Trend where
  | bull : Trend
  | bear : Trend
deriving DecidableEq, Repr, BEq

/-- A DataFrame: the five OHLCV columns of a fetched frame plus the four
derived columns that `analyze_stock` assigns in place (none until then). -/
structure DF where
  openCol : List ℚ
  highCol : List ℚ
  lowCol : List ℚ
  closeCol : List ℚ
  volumeCol : List ℚ
  emaFCol : Option (List ℚ) := none
  emaSCol : Option (List ℚ) := none
  rsiCol : Option (List PF) := none
  volMACol : Option (List PF) := none
deriving DecidableEq, Repr, BEq

/-- The frame's column names, in order. -/
def DF.cols (df : DF) : List String :=
  ["Open", "High", "Low", "Close", "Volume"]
    ++ (if df.emaFCol.isSome then ["EMA_F"] else [])
    ++ (if df.emaSCol.isSome then ["EMA_S"] else [])
    ++ (if df.rsiCol.isSome then ["RSI"] else [])
    ++ (if df.volMACol.isSome then ["Vol_MA"] else [])

/-- The `info` dict built on lines 90-99 (display strings abstracted to
enums: trend bull = "多頭", msg per branch, volMsg true = "🔥 爆量"). -/
structure Info where
  price : ℚ
  pct : ℚ
  rsiVal : PF
  ratioVol : PF
  trend : Trend
  msg : Msg
  alert_level : AlertLevel
  volMsg : Bool
deriving DecidableEq, Repr, BEq

def emaPrev (span : ℕ) (df : DF) : ℚ :=
  (emaList span df.closeCol).getD (df.closeCol.length - 2) 0

def emaLast (span : ℕ) (df : DF) : ℚ :=
  (emaList span df.closeCol).getD (df.closeCol.length - 1) 0

def rsiLast (df : DF) : PF :=
  (rsiSeries 14 df.closeCol).getD (df.closeCol.length - 1) PF.nan

def volMALast (df : DF) : PF :=
  (rollingMean 10 df.volumeCol).getD (df.closeCol.length - 1) PF.nan

/-- Line 63: `float(last['Volume'] / last['Vol_MA'])`, a numpy division
(inf/NaN on a zero or NaN moving average, no exception). -/
def ratioVolOf (df : DF) : PF :=
  pfDiv (PF.val (df.volumeCol.getD (df.closeCol.length - 1) 0)) (volMALast df)

def goldOf (f s : ℕ) (df : DF) : Bool :=
  is_gold (emaPrev f df) (emaPrev s df) (emaLast f df) (emaLast s df)

def deathOf (f s : ℕ) (df : DF) : Bool :=
  is_death (emaPrev f df) (emaPrev s df) (emaLast f df) (emaLast s df)

/-- Lines 55-99: the `info` dict built when the call completes, i.e. when
line 61 does not raise.  `pct` is written with ℚ division; the source's
Python-float division on line 61 raises ZeroDivisionError on a zero
previous close, a path modelled by `pctChange` and `analyze_stock_run`
below (`pctChange_ok` ties the two: on the non-raise path this field equals
the value line 61 computes). -/
def buildInfo (f s : ℕ) (df : DF) (vix_chg : ℚ) : Info :=
  { price := df.closeCol.getD (df.closeCol.length - 1) 0
  , pct := (df.closeCol.getD (df.closeCol.length - 1) 0
        - df.closeCol.getD (df.closeCol.length - 2) 0)
        / df.closeCol.getD (df.closeCol.length - 2) 0 * 100
  , rsiVal := rsiLast df
  , ratioVol := ratioVolOf df
  , trend := if emaLast s df < emaLast f df then Trend.bull else Trend.bear
  , msg := (signalOf (goldOf f s df) (deathOf f s df) vix_chg (rsiLast df)).1
  , alert_level := (signalOf (goldOf f s df) (deathOf f s df) vix_chg (rsiLast df)).2
  , volMsg := pfGtQ (ratioVolOf df) 2 }

/-- Lines 50-53: the four column assignments `df['EMA_F'] = ...` etc.,
performed on the caller's frame in place. -/
def addCols (f s : ℕ) (df : DF) : DF :=
  { df with
      emaFCol := some (emaList f df.closeCol)
    , emaSCol := some (emaList s df.closeCol)
    , rsiCol := some (rsiSeries 14 df.closeCol)
    , volMACol := some (rollingMean 10 df.volumeCol) }

/-- `analyze_stock(df, vix_chg)` (lines 45-100), on the paths where the
call completes: the first component is the state of the frame after the
call (the function returns the same, mutated, object; with no data or under
25 rows it returns `None, {}` untouched).  The exceptional path of line 61
(ZeroDivisionError on a zero previous close) is carried by
`analyze_stock_run` below, which agrees with this function whenever it
returns (`analyze_stock_run_ok`). -/
def analyze_stock (f s : ℕ) (df? : Option DF) (vix_chg : ℚ) :
    Option DF × Option Info :=
  match df? with
  | none => (none, none)
  | some df =>
      if df.closeCol.length < 25 then (none, none)
      else (some (addCols f s df), some (buildInfo f s df vix_chg))

/-- Line 61: `p_chg_pct = ((curr_p - prev_p) / prev_p) * 100` divides
Python floats, which raises ZeroDivisionError when the previous close is
zero; otherwise it yields the percentage change. -/
def pctChange (df : DF) : Except String ℚ :=
  if df.closeCol.getD (df.closeCol.length - 2) 0 = 0 then
    Except.error "ZeroDivisionError: float division by zero"
  else
    Except.ok ((df.closeCol.getD (df.closeCol.length - 1) 0
      - df.closeCol.getD (df.closeCol.length - 2) 0)
      / df.closeCol.getD (df.closeCol.length - 2) 0 * 100)

/-- A call to `analyze_stock` with its exceptional path: the length guard
of line 46 runs first (lines 50-63 are never reached under 25 rows), then
line 61 either raises, ending the call with ZeroDivisionError, or the call
completes with the mutated frame and the `info` dict. -/
def analyze_stock_run (f s : ℕ) (df? : Option DF) (vix_chg : ℚ) :
    Except String (Option DF × Option Info) :=
  match df? with
  | none => Except.ok (none, none)
  | some df =>
      if df.closeCol.length < 25 then Except.ok (none, none)
      else
        match pctChange df with
        | Except.error e => Except.error e
        | Except.ok _ =>
            Except.ok (some (addCols f s df), some (buildInfo f s df vix_chg))

/-- `get_vix_info()` (lines 40-43), given the Close column of the fetched
VIX frame (`none` models a failed fetch). -/
def get_vix_info (vixData : Option (List ℚ)) : ℚ × ℚ :=
  match vixData with
  | none => (20, 0)
  | some closes =>
      if closes.length < 2 then (20, 0)
      else (closes.getD (closes.length - 1) 0,
            closes.getD (closes.length - 1) 0 - closes.getD (closes.length - 2) 0)

inductive RiskLabel where
  | low : RiskLabel
  | medium : RiskLabel
  | high : RiskLabel
  | unknown : RiskLabel
deriving DecidableEq, Repr, BEq

/-- Modelled from the spec: the risk-label thresholds of section 4.2
("level > 30 or deltaPct > 5 then High; level > 20 then Medium; else Low"),
a field absent from src/v4.py, which returns only (level, delta). -/
def riskLabelOf (level deltaPct : ℚ) : RiskLabel :=
  if 30 < level ∨ 5 < deltaPct then RiskLabel.high
  else if 20 < level then RiskLabel.medium
  else RiskLabel.low

structure VolCtx where
  level : ℚ
  delta : ℚ
  riskLabel : RiskLabel
deriving DecidableEq, Repr, BEq

/-- The Volatility Context Provider: level and delta exactly as
`get_vix_info` computes them; the riskLabel field is modelled from the spec
(Unknown on the 0-1 bar default, section 4.2 thresholds otherwise), since
src/v4.py carries no such field. -/
def volatilityContext (vixData : Option (List ℚ)) : VolCtx :=
  match vixData with
  | none => ⟨20, 0, RiskLabel.unknown⟩
  | some closes =>
      if closes.length < 2 then ⟨20, 0, RiskLabel.unknown⟩
      else
        ⟨closes.getD (closes.length - 1) 0,
         closes.getD (closes.length - 1) 0 - closes.getD (closes.length - 2) 0,
         riskLabelOf (closes.getD (closes.length - 1) 0)
           ((closes.getD (closes.length - 1) 0 - closes.getD (closes.length - 2) 0)
             / closes.getD (closes.length - 2) 0 * 100)⟩

structure PivotLevels where
  pivot : ℚ
  resistance1 : ℚ
  support1 : ℚ
deriving DecidableEq, Repr, BEq

/-- Modelled from the spec: the pivot levels of section 4.1 ("pivot =
(sessionHigh + sessionLow + lastClose)/3; resistance1 = 2*pivot −
sessionLow; support1 = 2*pivot − sessionHigh"); src/v4.py computes none. -/
def pivotLevelsOf (sessionHigh sessionLow lastClose : ℚ) : PivotLevels :=
  { pivot := (sessionHigh + sessionLow + lastClose) / 3
  , resistance1 := 2 * ((sessionHigh + sessionLow + lastClose) / 3) - sessionLow
  , support1 := 2 * ((sessionHigh + sessionLow + lastClose) / 3) - sessionHigh }

inductive Proximity where
  | noProx : Proximity
  | nearResistance : Proximity
  | nearSupport : Proximity
deriving DecidableEq, Repr, BEq

/-- Modelled from the spec: proximity bands of section 4.3 ("NearResistance
iff price ≥ resistance1*0.995; NearSupport iff price ≤ support1*1.005;
if both trigger, resistance takes priority"); src/v4.py computes none. -/
def proximityOf (price r1 s1 : ℚ) : Proximity :=
  if r1 * (995 / 1000) ≤ price then Proximity.nearResistance
  else if price ≤ s1 * (1005 / 1000) then Proximity.nearSupport
  else Proximity.noProx

inductive RsiExtreme where
  | noneX : RsiExtreme
  | overbought : RsiExtreme
  | oversold : RsiExtreme
deriving DecidableEq, Repr, BEq

/-- Modelled from the spec: RSI extremes with the 75/25 pair the source
uses. -/
def rsiExtremeOf (rsi : ℚ) : RsiExtreme :=
  if 75 < rsi then RsiExtreme.overbought
  else if rsi < 25 then RsiExtreme.oversold
  else RsiExtreme.noneX

inductive SpecAlert where
  | info : SpecAlert
  | warning : SpecAlert
  | error : SpecAlert
deriving DecidableEq, Repr, BEq

/-- Modelled from the spec: the composite precedence rules 1-6 of section
4.3, with rising-risk threshold θ; src/v4.py implements no proximity rule. -/
def specAlertLevel (θ : ℚ) (cross : Crossover) (delta : ℚ)
    (rsiX : RsiExtreme) (prox : Proximity) (spike : Bool) : SpecAlert :=
  match cross with
  | Crossover.death => SpecAlert.error
  | Crossover.golden => if θ < delta then SpecAlert.error else SpecAlert.warning
  | Crossover.none =>
      match rsiX with
      | RsiExtreme.overbought => SpecAlert.warning
      | RsiExtreme.oversold => SpecAlert.warning
      | RsiExtreme.noneX =>
          match prox with
          | Proximity.nearResistance => SpecAlert.warning
          | Proximity.nearSupport => SpecAlert.info
          | Proximity.noProx => if spike then SpecAlert.warning else SpecAlert.info

/-- Every name the script ever binds: imports (line 1-6), module-level
assignments, def names and parameters, loop and comprehension variables.
`v_chg`, read on lines 110 and 113, is not among them. -/
def programAssignedNames : List String :=
  ["st", "yf", "pd", "go", "make_subplots", "time",
   "default_symbols", "input_symbols", "symbols", "interval",
   "ema_fast_val", "ema_slow_val",
   "fetch_data", "ticker", "data",
   "calculate_rsi", "series", "period", "delta", "gain", "loss", "rs",
   "get_vix_info", "vix",
   "analyze_stock", "df", "vix_chg", "last", "prev", "curr_p", "prev_p",
   "p_chg_pct", "curr_rsi", "vol_ratio", "signal", "alert_level",
   "is_gold", "is_death", "msg", "vol_msg", "info",
   "placeholder", "vix_val", "v_col1", "v_col2", "alert_cols",
   "stock_results", "idx", "sym", "df_raw", "c_left", "c_right", "fig",
   "v_colors", "i", "s"]

/-- Evaluating a bare name: NameError when the program never binds it. -/
def lookupVar (x : String) : Except String Unit :=
  if programAssignedNames.contains x then Except.ok ()
  else Except.error ("NameError: name " ++ x ++ " is not defined")

/-- One iteration of the `while True` loop (lines 105-144): fetch the VIX
context (line 108), render the VIX metric (line 110, which evaluates the
f-strings over `vix_val` and `v_chg`), then analyze and render each symbol.
The per-symbol results are only reached if the metric line evaluates. -/
def refreshCycle (f s : ℕ) (vixData : Option (List ℚ))
    (stocks : List (String × Option DF)) :
    Except String (List (String × Option Info)) :=
  match lookupVar "vix_val", lookupVar "v_chg" with
  | Except.ok _, Except.ok _ =>
      Except.ok (stocks.map (fun p => (p.1, (analyze_stock f s p.2 (get_vix_info vixData).2).2)))
  | Except.error e, _ => Except.error e
  | _, Except.error e => Except.error e

/-! Concrete bar series used to evaluate the embedding on explicit inputs.
Defaults of the sidebar sliders: fast EMA 9, slow EMA 21. -/

def repQ (n : ℕ) (q : ℚ) : List ℚ := List.replicate n q

/-- A freshly fetched frame (no derived columns yet) with the given Close
and Volume columns; Open/High/Low play no role in `analyze_stock`. -/
def dfBase (closes volumes : List ℚ) : DF :=
  { openCol := closes, highCol := closes, lowCol := closes,
    closeCol := closes, volumeCol := volumes }

/-- 24 bars at 100 then one at 200: the fast EMA (level 120) crosses above
the slow EMA (level 1200/11) exactly at the last bar. -/
def dfG : DF := dfBase (repQ 24 100 ++ [200]) (repQ 25 100)

/-- 24 bars at 100 then one at 50: a death cross at the last bar. -/
def dfD : DF := dfBase (repQ 24 100 ++ [50]) (repQ 25 100)

/-- Flat closes (no crossover, RSI NaN) with a 10x volume spike at the last
bar: volume ratio 1000/190 > 2. -/
def dfSpike : DF := dfBase (repQ 25 100) (repQ 24 100 ++ [1000])

/-- A fully flat 25-bar frame. -/
def dfFlat25 : DF := dfBase (repQ 25 100) (repQ 25 100)

/-- 22 bars: at least max(21, 14, 10) + 1 = 22, yet fewer than 25. -/
def df22 : DF := dfBase (repQ 22 100) (repQ 22 100)

/-- 25 bars whose second-to-last close is zero: line 61 divides by zero. -/
def dfZero : DF := dfBase (repQ 23 100 ++ [0, 100]) (repQ 25 100)

/-- 15 closes alternating up 1, down 1: a filled RSI window with average
gain and average loss both 1/2, hence RSI exactly 50. -/
def closesW : List ℚ :=
  [100, 101, 100, 101, 100, 101, 100, 101, 100, 101, 100, 101, 100, 101, 100]

/-- The `info` dict `analyze_stock` produces for `dfG` with vix_chg = -1. -/
def infoG : Info :=
  { price := 200, pct := 100, rsiVal := PF.val 100, ratioVol := PF.val 1,
    trend := Trend.bull, msg := Msg.golden, alert_level := AlertLevel.error,
    volMsg := false }

/-- The `info` dict `analyze_stock` produces for `dfD` (any vix_chg). -/
def infoD : Info :=
  { price := 50, pct := -50, rsiVal := PF.val 0, ratioVol := PF.val 1,
    trend := Trend.bear, msg := Msg.death, alert_level := AlertLevel.error,
    volMsg := false }

/-- The `info` dict `analyze_stock` produces for `dfSpike`. -/
def infoS : Info :=
  { price := 100, pct := 0, rsiVal := PF.nan, ratioVol := PF.val (100 / 19),
    trend := Trend.bear, msg := Msg.stable, alert_level := AlertLevel.success,
    volMsg := true }

/-- The state of `dfFlat25` after `analyze_stock` has run on it. -/
def df2W : DF := addCols 9 21 dfFlat25

/-! Helper lemmas about the signal chain of lines 66-85. -/

theorem signalOf_golden_iff (g d : Bool) (v : ℚ) (r : PF)
    (h : (signalOf g d v r).1 = Msg.golden) :
    ((signalOf g d v r).2 = AlertLevel.error ↔ v < 0) := by
  cases g with
  | true =>
      by_cases hv : v < 0 <;> simp [signalOf, hv]
  | false =>
      exfalso
      cases d with
      | true => simp [signalOf] at h
      | false =>
          by_cases h75 : pfGtQ r 75 = true <;> by_cases h25 : pfLtQ r 25 = true <;>
            simp [signalOf, h75, h25] at h

theorem signalOf_death_error (g d : Bool) (v : ℚ) (r : PF)
    (h : (signalOf g d v r).1 = Msg.death) :
    (signalOf g d v r).2 = AlertLevel.error := by
  cases g with
  | true => simp [signalOf] at h
  | false =>
      cases d with
      | true => simp [signalOf]
      | false =>
          by_cases h75 : pfGtQ r 75 = true <;> by_cases h25 : pfLtQ r 25 = true <;>
            simp [signalOf, h75, h25] at h

theorem signalOf_stable_success (g d : Bool) (v : ℚ) (r : PF)
    (h : (signalOf g d v r).1 = Msg.stable) :
    (signalOf g d v r).2 = AlertLevel.success := by
  cases g with
  | true => by_cases hv : v < 0 <;> simp [signalOf, hv] at h
  | false =>
      cases d with
      | true => simp [signalOf] at h
      | false =>
          by_cases h75 : pfGtQ r 75 = true <;> by_cases h25 : pfLtQ r 25 = true <;>
            simp [signalOf, h75, h25] at h ⊢

/-- Every `info` the analysis returns is `buildInfo` of some frame. -/
theorem analyze_stock_some (f s : ℕ) (df? : Option DF) (v : ℚ) (info : Info)
    (h : (analyze_stock f s df? v).2 = some info) :
    ∃ df : DF, info = buildInfo f s df v := by
  match df? with
  | none => simp [analyze_stock] at h
  | some df =>
      by_cases hl : df.closeCol.length < 25
      · simp [analyze_stock, hl] at h
      · refine ⟨df, ?_⟩
        simp [analyze_stock, hl] at h
        exact h.symm

theorem pctChange_eq_error (df : DF)
    (hz : df.closeCol.getD (df.closeCol.length - 2) 0 = 0) :
    pctChange df = Except.error "ZeroDivisionError: float division by zero" := by
  unfold pctChange
  rw [if_pos hz]

theorem pctChange_eq_ok (df : DF)
    (hz : df.closeCol.getD (df.closeCol.length - 2) 0 ≠ 0) :
    pctChange df = Except.ok ((df.closeCol.getD (df.closeCol.length - 1) 0
      - df.closeCol.getD (df.closeCol.length - 2) 0)
      / df.closeCol.getD (df.closeCol.length - 2) 0 * 100) := by
  unfold pctChange
  rw [if_neg hz]

theorem analyze_stock_run_some (f s : ℕ) (df : DF) (v : ℚ) :
    analyze_stock_run f s (some df) v =
      if df.closeCol.length < 25 then Except.ok (none, none)
      else
        match pctChange df with
        | Except.error e => Except.error e
        | Except.ok _ =>
            Except.ok (some (addCols f s df), some (buildInfo f s df v)) := rfl

theorem analyze_stock_run_raises (f s : ℕ) (df : DF) (v : ℚ)
    (hl : ¬ df.closeCol.length < 25)
    (hz : df.closeCol.getD (df.closeCol.length - 2) 0 = 0) :
    analyze_stock_run f s (some df) v =
      Except.error "ZeroDivisionError: float division by zero" := by
  rw [analyze_stock_run_some, if_neg hl, pctChange_eq_error df hz]

theorem analyze_stock_run_completes (f s : ℕ) (df : DF) (v : ℚ)
    (hl : ¬ df.closeCol.length < 25)
    (hz : df.closeCol.getD (df.closeCol.length - 2) 0 ≠ 0) :
    analyze_stock_run f s (some df) v =
      Except.ok (some (addCols f s df), some (buildInfo f s df v)) := by
  rw [analyze_stock_run_some, if_neg hl, pctChange_eq_ok df hz]

/-- On the non-raise path, the `pct` field of the `info` dict is the value
line 61 computes. -/
theorem pctChange_ok (f s : ℕ) (v : ℚ) (df : DF) (q : ℚ)
    (h : pctChange df = Except.ok q) : (buildInfo f s df v).pct = q := by
  by_cases hz : df.closeCol.getD (df.closeCol.length - 2) 0 = 0
  · rw [pctChange_eq_error df hz] at h
    exact Except.noConfusion h
  · rw [pctChange_eq_ok df hz] at h
    injection h with h2

/-- Whenever the call completes, `analyze_stock_run` returns exactly the
pair `analyze_stock` describes. -/
theorem analyze_stock_run_ok (f s : ℕ) (df? : Option DF) (v : ℚ)
    (out : Option DF × Option Info)
    (h : analyze_stock_run f s df? v = Except.ok out) :
    out = analyze_stock f s df? v := by
  match df? with
  | none =>
      rw [show analyze_stock_run f s none v = Except.ok (none, none) from rfl] at h
      injection h with h2
      rw [← h2]
      rfl
  | some df =>
      by_cases hl : df.closeCol.length < 25
      · rw [analyze_stock_run_some, if_pos hl] at h
        injection h with h2
        rw [← h2]
        simp [analyze_stock, hl]
      · by_cases hz : df.closeCol.getD (df.closeCol.length - 2) 0 = 0
        · rw [analyze_stock_run_raises f s df v hl hz] at h
          exact Except.noConfusion h
        · rw [analyze_stock_run_completes f s df v hl hz] at h
          injection h with h2
          rw [← h2]
          simp [analyze_stock, hl]

/-- Claim C1, counterexample: on a series with a Golden crossover at the
last bar and volatility delta -1.0, the code assigns alertLevel Error, while
the claim demands Warning ("delta is not rising risk"). -/
theorem golden_vix_drop_cx :
    (analyze_stock 9 21 (some dfG) (-1)).2.map Info.msg = some Msg.golden ∧
    (analyze_stock 9 21 (some dfG) (-1)).2.map Info.alert_level = some AlertLevel.error ∧
    (AlertLevel.error == AlertLevel.warning) = false := by
  with_unfolding_all decide

/-- Claim C1, amended: for every bar series producing a Golden crossover at
the last bar, the classifier assigns alertLevel Error iff the volatility
delta is negative (vix_chg < 0), and Warning otherwise; in particular a
Golden crossover with delta -1.0 yields Error. -/
theorem golden_alert_error_iff_vix_drop (f s : ℕ) (df? : Option DF) (v : ℚ)
    (info : Info) (h : (analyze_stock f s df? v).2 = some info)
    (hm : info.msg = Msg.golden) :
    (info.alert_level = AlertLevel.error ↔ v < 0) := by
  obtain ⟨df, rfl⟩ := analyze_stock_some f s df? v info h
  exact signalOf_golden_iff _ _ _ _ hm

/-- Claim C1, witness: the golden-cross frame `dfG` with vix_chg = -1. -/
theorem golden_alert_error_iff_vix_drop_wit : infoG.alert_level = AlertLevel.error :=
  (golden_alert_error_iff_vix_drop 9 21 (some dfG) (-1) infoG
    (by with_unfolding_all decide) (by with_unfolding_all decide)).mpr
    (by norm_num)

/-- Claim C2: for consecutive (fast, slow) EMA pairs the classification is
Golden iff prevFast ≤ prevSlow and currFast > currSlow, Death iff
prevFast ≥ prevSlow and currFast < currSlow, None iff neither boolean
holds, and the two booleans are mutually exclusive (so exactly one of
Golden, Death, None results). -/
theorem crossover_classification (pF pS cF cS : ℚ) :
    (crossoverOf pF pS cF cS = Crossover.golden ↔ pF ≤ pS ∧ cS < cF) ∧
    (crossoverOf pF pS cF cS = Crossover.death ↔ pS ≤ pF ∧ cF < cS) ∧
    (crossoverOf pF pS cF cS = Crossover.none ↔
      (is_gold pF pS cF cS = false ∧ is_death pF pS cF cS = false)) ∧
    (is_gold pF pS cF cS && is_death pF pS cF cS) = false := by
  have hga : is_gold pF pS cF cS = true ↔ pF ≤ pS ∧ cS < cF := by
    simp [is_gold]
  have hda : is_death pF pS cF cS = true ↔ pS ≤ pF ∧ cF < cS := by
    simp [is_death]
  have hx : (is_gold pF pS cF cS && is_death pF pS cF cS) = false := by
    cases hg : is_gold pF pS cF cS with
    | false => simp
    | true =>
        cases hd : is_death pF pS cF cS with
        | false => simp
        | true => exact absurd ((hda.mp hd).2) (not_lt.mpr (le_of_lt (hga.mp hg).2))
  refine ⟨?_, ?_, ?_, hx⟩
  · rw [← hga]
    cases hg : is_gold pF pS cF cS with
    | true => simp [crossoverOf, hg]
    | false =>
        cases hd : is_death pF pS cF cS with
        | true => simp [crossoverOf, hg, hd]
        | false => simp [crossoverOf, hg, hd]
  · rw [← hda]
    cases hg : is_gold pF pS cF cS with
    | true =>
        have hd : is_death pF pS cF cS = false := by
          cases hd : is_death pF pS cF cS with
          | false => rfl
          | true => exact absurd ((hda.mp hd).2) (not_lt.mpr (le_of_lt (hga.mp hg).2))
        simp [crossoverOf, hg, hd]
    | false =>
        cases hd : is_death pF pS cF cS with
        | true => simp [crossoverOf, hg, hd]
        | false => simp [crossoverOf, hg, hd]
  · cases hg : is_gold pF pS cF cS with
    | true => simp [crossoverOf, hg]
    | false =>
        cases hd : is_death pF pS cF cS with
        | true => simp [crossoverOf, hg, hd]
        | false => simp [crossoverOf, hg, hd]

/-- Claim C3: a Death crossover at the last bar yields alertLevel Error,
for every volatility delta and every frame. -/
theorem death_always_error (f s : ℕ) (df? : Option DF) (v : ℚ)
    (info : Info) (h : (analyze_stock f s df? v).2 = some info)
    (hm : info.msg = Msg.death) :
    info.alert_level = AlertLevel.error := by
  obtain ⟨df, rfl⟩ := analyze_stock_some f s df? v info h
  exact signalOf_death_error _ _ _ _ hm

/-- Claim C3, witness: the death-cross frame `dfD` under a positive
volatility delta. -/
theorem death_always_error_wit : infoD.alert_level = AlertLevel.error :=
  death_always_error 9 21 (some dfD) 5 infoD
    (by with_unfolding_all decide) (by with_unfolding_all decide)

/-- Claim C5, counterexample: with emaSlowPeriod 21 the claimed threshold is
max(21, 14, 10) + 1 = 22, yet a 22-bar series is rejected with the
InsufficientData result `None, {}`, because line 46 hard-codes
`len(df) < 25`. -/
theorem min_length_cx :
    df22.closeCol.length = 22 ∧
    Nat.max 21 (Nat.max 14 10) + 1 = 22 ∧
    analyze_stock_run 9 21 (some df22) 0 = Except.ok (none, none) :=
  ⟨by decide, by decide, by with_unfolding_all rfl⟩

/-- Claim C5, amended: the call yields the InsufficientData result
`None, {}` iff the frame has fewer than 25 rows, a fixed constant
independent of the EMA parameters; with 25 or more rows it never yields
InsufficientData: it raises ZeroDivisionError (line 61) when the
second-to-last close is zero, and otherwise completes with the mutated
frame and a fully populated info. -/
theorem min_length_cutoff (f s : ℕ) (df : DF) (v : ℚ) :
    (analyze_stock_run f s (some df) v = Except.ok (none, none) ↔
      df.closeCol.length < 25) ∧
    (25 ≤ df.closeCol.length → df.closeCol.getD (df.closeCol.length - 2) 0 = 0 →
      analyze_stock_run f s (some df) v =
        Except.error "ZeroDivisionError: float division by zero") ∧
    (25 ≤ df.closeCol.length → df.closeCol.getD (df.closeCol.length - 2) 0 ≠ 0 →
      analyze_stock_run f s (some df) v =
        Except.ok (some (addCols f s df), some (buildInfo f s df v))) := by
  by_cases hl : df.closeCol.length < 25
  · refine ⟨?_, ?_, ?_⟩
    · rw [analyze_stock_run_some, if_pos hl]
      simp [hl]
    · intro hge _
      exact absurd hge (by omega)
    · intro hge _
      exact absurd hge (by omega)
  · by_cases hz : df.closeCol.getD (df.closeCol.length - 2) 0 = 0
    · refine ⟨?_, fun _ _ => analyze_stock_run_raises f s df v hl hz,
        fun _ hnz => absurd hz hnz⟩
      rw [analyze_stock_run_raises f s df v hl hz]
      simp [hl]
    · refine ⟨?_, fun _ hz2 => absurd hz2 hz,
        fun _ _ => analyze_stock_run_completes f s df v hl hz⟩
      rw [analyze_stock_run_completes f s df v hl hz]
      simp [hl]

/-- Claim C5, witness: the 22-bar frame yields InsufficientData, the flat
25-bar frame completes, and the zero-close 25-bar frame raises. -/
theorem min_length_cutoff_wit :
    analyze_stock_run 9 21 (some df22) 0 = Except.ok (none, none) ∧
    analyze_stock_run 9 21 (some dfFlat25) 0 =
      Except.ok (some (addCols 9 21 dfFlat25), some (buildInfo 9 21 dfFlat25 0)) ∧
    analyze_stock_run 9 21 (some dfZero) 0 =
      Except.error "ZeroDivisionError: float division by zero" :=
  ⟨(min_length_cutoff 9 21 df22 0).1.mpr (by with_unfolding_all decide),
   (min_length_cutoff 9 21 dfFlat25 0).2.2 (by with_unfolding_all decide)
     (by with_unfolding_all decide),
   (min_length_cutoff 9 21 dfZero 0).2.1 (by with_unfolding_all decide)
     (by with_unfolding_all decide)⟩

/-- Claim C7, counterexample: on `dfSpike` the volume-spike flag holds with
no crossover and no RSI extreme, yet the composite alert level is success
(Info), not Warning: the spike never feeds the alert level. -/
theorem volume_spike_cx :
    (analyze_stock 9 21 (some dfSpike) 0).2.map Info.volMsg = some true ∧
    (analyze_stock 9 21 (some dfSpike) 0).2.map Info.msg = some Msg.stable ∧
    (analyze_stock 9 21 (some dfSpike) 0).2.map Info.alert_level = some AlertLevel.success ∧
    (AlertLevel.success == AlertLevel.warning) = false := by
  with_unfolding_all decide

/-- Claim C7, amended: the spike flag holds iff volumeRatio > 2.0 (the one
constant the code uses, lines 88 and 141), and the spike does not escalate
the alert: when no crossover and no RSI extreme fired (msg is stable), the
alert level is success (Info), spike or not. -/
theorem volume_spike_flag_and_alert (f s : ℕ) (df? : Option DF) (v : ℚ)
    (info : Info) (h : (analyze_stock f s df? v).2 = some info) :
    info.volMsg = pfGtQ info.ratioVol 2 ∧
    (info.msg = Msg.stable → info.alert_level = AlertLevel.success) := by
  obtain ⟨df, rfl⟩ := analyze_stock_some f s df? v info h
  exact ⟨rfl, fun hm => signalOf_stable_success _ _ _ _ hm⟩

/-- Claim C7, witness: the spiking frame `dfSpike`. -/
theorem volume_spike_flag_and_alert_wit :
    infoS.alert_level = AlertLevel.success ∧ infoS.volMsg = pfGtQ infoS.ratioVol 2 :=
  ⟨(volume_spike_flag_and_alert 9 21 (some dfSpike) 0 infoS
      (by with_unfolding_all decide)).2 (by with_unfolding_all decide),
   (volume_spike_flag_and_alert 9 21 (some dfSpike) 0 infoS
      (by with_unfolding_all decide)).1⟩

/-- Claim C9, counterexample: running the analysis on a fresh 25-bar frame
adds the four indicator columns to the frame in place, so the input frame's
column set is not preserved. -/
theorem analyze_mutates_cx :
    (analyze_stock 9 21 (some dfFlat25) 0).1.map DF.cols =
      some ["Open", "High", "Low", "Close", "Volume", "EMA_F", "EMA_S", "RSI", "Vol_MA"] ∧
    dfFlat25.cols = ["Open", "High", "Low", "Close", "Volume"] ∧
    ((analyze_stock 9 21 (some dfFlat25) 0).1.map DF.cols == some dfFlat25.cols) = false := by
  with_unfolding_all decide

/-- Claim C9, amended: the analysis preserves the values of the five OHLCV
columns of the input frame but mutates it, assigning the four derived
columns EMA_F, EMA_S, RSI, Vol_MA in place. -/
theorem analyze_preserves_ohlcv_adds_columns (f s : ℕ) (df df2 : DF) (v : ℚ)
    (h : (analyze_stock f s (some df) v).1 = some df2) :
    df2.openCol = df.openCol ∧ df2.highCol = df.highCol ∧
    df2.lowCol = df.lowCol ∧ df2.closeCol = df.closeCol ∧
    df2.volumeCol = df.volumeCol ∧
    df2.emaFCol = some (emaList f df.closeCol) ∧
    df2.emaSCol = some (emaList s df.closeCol) ∧
    df2.rsiCol = some (rsiSeries 14 df.closeCol) ∧
    df2.volMACol = some (rollingMean 10 df.volumeCol) := by
  by_cases hl : df.closeCol.length < 25
  · simp [analyze_stock, hl] at h
  · simp [analyze_stock, hl] at h
    rw [← h]
    simp [addCols]

/-- Claim C9, witness: the flat 25-bar frame and its post-call state. -/
theorem analyze_preserves_ohlcv_adds_columns_wit :
    df2W.closeCol = dfFlat25.closeCol ∧
    df2W.emaFCol = some (emaList 9 dfFlat25.closeCol) :=
  ⟨(analyze_preserves_ohlcv_adds_columns 9 21 dfFlat25 df2W 0
      (by with_unfolding_all decide)).2.2.2.1,
   (analyze_preserves_ohlcv_adds_columns 9 21 dfFlat25 df2W 0
      (by with_unfolding_all decide)).2.2.2.2.2.1⟩

/-! Lemmas about the RSI computation (claim C4). -/

theorem gainsOf_nonneg (closes : List ℚ) : ∀ x ∈ gainsOf closes, 0 ≤ x := by
  intro x hx
  match closes with
  | [] => simp [gainsOf] at hx
  | c :: rest =>
      simp only [gainsOf, List.mem_cons, List.mem_map] at hx
      rcases hx with h | ⟨p, _, rfl⟩
      · simp [h]
      · exact le_max_right _ _

theorem lossesOf_nonneg (closes : List ℚ) : ∀ x ∈ lossesOf closes, 0 ≤ x := by
  intro x hx
  match closes with
  | [] => simp [lossesOf] at hx
  | c :: rest =>
      simp only [lossesOf, List.mem_cons, List.mem_map] at hx
      rcases hx with h | ⟨p, _, rfl⟩
      · simp [h]
      · exact le_max_right _ _

theorem rollingMean_length (w : ℕ) (xs : List ℚ) :
    (rollingMean w xs).length = xs.length := by
  simp [rollingMean]

theorem rollingMean_getD_lt (w : ℕ) (xs : List ℚ) (i : ℕ) (hi : i < xs.length) :
    (rollingMean w xs).getD i PF.nan =
      if i + 1 < w then PF.nan
      else PF.val (((xs.take (i + 1)).drop (i + 1 - w)).sum / (w : ℚ)) := by
  unfold rollingMean
  rw [List.getD_eq_getElem?_getD, List.getElem?_map, List.getElem?_range hi]
  rfl

theorem rollingMean_nonneg (w : ℕ) (xs : List ℚ) (i : ℕ)
    (hnn : ∀ x ∈ xs, 0 ≤ x) :
    (rollingMean w xs).getD i PF.nan = PF.nan ∨
      ∃ q, (rollingMean w xs).getD i PF.nan = PF.val q ∧ 0 ≤ q := by
  rcases lt_or_le i xs.length with hi | hi
  · rw [rollingMean_getD_lt w xs i hi]
    by_cases hw : i + 1 < w
    · left
      simp [hw]
    · right
      rw [if_neg hw]
      refine ⟨_, rfl, ?_⟩
      apply div_nonneg
      · apply List.sum_nonneg
        intro x hx
        exact hnn x (List.take_subset _ _ (List.drop_subset _ _ hx))
      · exact Nat.cast_nonneg w
  · left
    apply List.getD_eq_default
    rw [rollingMean_length]
    exact hi

theorem rsiFromAvgs_nan_left (l : PF) : rsiFromAvgs PF.nan l = PF.nan := by
  cases l <;> rfl

theorem rsiFromAvgs_nan_right (g : PF) : rsiFromAvgs g PF.nan = PF.nan := by
  cases g <;> rfl

theorem rsiFromAvgs_zero_zero : rsiFromAvgs (PF.val 0) (PF.val 0) = PF.nan := by
  norm_num [rsiFromAvgs, pfDiv, pfAdd, pfSub, pfNeg]

theorem rsiFromAvgs_pos_zero (g : ℚ) (hg : 0 < g) :
    rsiFromAvgs (PF.val g) (PF.val 0) = PF.val 100 := by
  norm_num [rsiFromAvgs, pfDiv, pfAdd, pfSub, pfNeg, hg, hg.ne']

theorem rsiFromAvgs_val_pos (g l : ℚ) (hg : 0 ≤ g) (hl : 0 < l) :
    ∃ q, rsiFromAvgs (PF.val g) (PF.val l) = PF.val q ∧ 0 ≤ q ∧ q ≤ 100 := by
  have hr : 0 ≤ g / l := div_nonneg hg hl.le
  have h1 : (0 : ℚ) < 1 + g / l := by linarith
  refine ⟨100 - 100 / (1 + g / l), ?_, ?_, ?_⟩
  · norm_num [rsiFromAvgs, pfDiv, pfAdd, pfSub, pfNeg, hl.ne', h1.ne']
    ring
  · have h2 : 100 / (1 + g / l) ≤ 100 := div_le_self (by norm_num) (by linarith)
    linarith
  · have h3 : 0 < 100 / (1 + g / l) := div_pos (by norm_num) h1
    linarith

theorem rsiSeries_getD_lt (closes : List ℚ) (i : ℕ) (hi : i < closes.length) :
    (rsiSeries 14 closes).getD i PF.nan =
      rsiFromAvgs (avgGainAt closes i) (avgLossAt closes i) := by
  unfold rsiSeries avgGainAt avgLossAt
  rw [List.getD_eq_getElem?_getD, List.getElem?_map, List.getElem?_range hi]
  rfl

theorem rsiSeries_getD_ge (closes : List ℚ) (i : ℕ) (hi : closes.length ≤ i) :
    (rsiSeries 14 closes).getD i PF.nan = PF.nan := by
  apply List.getD_eq_default
  simp [rsiSeries]
  exact hi

theorem gainsOf_length (closes : List ℚ) : (gainsOf closes).length = closes.length := by
  cases closes with
  | nil => rfl
  | cons c rest => simp [gainsOf]

theorem lossesOf_length (closes : List ℚ) : (lossesOf closes).length = closes.length := by
  cases closes with
  | nil => rfl
  | cons c rest => simp [lossesOf]

theorem avgGainAt_lt_of_val (closes : List ℚ) (i : ℕ) (g : ℚ)
    (h : avgGainAt closes i = PF.val g) : i < closes.length := by
  by_contra hge
  rw [avgGainAt, List.getD_eq_default] at h
  · exact PF.noConfusion h
  · rw [rollingMean_length, gainsOf_length]
    exact le_of_not_lt hge

/-- Claim C4, counterexample: on 15 equal closes the RSI window is fully
filled and the average loss is 0, yet the RSI is NaN (0/0 in `rs`), not
100, and not a value in [0, 100]. -/
theorem rsi_nan_cx :
    avgLossAt (repQ 15 100) 14 = PF.val 0 ∧
    avgGainAt (repQ 15 100) 14 = PF.val 0 ∧
    (rsiSeries 14 (repQ 15 100)).getD 14 PF.nan = PF.nan ∧
    (PF.nan == PF.val 100) = false := by
  with_unfolding_all decide

/-- Claim C4, amended: every RSI value the calculation produces that is an
ordinary number lies in [0, 100]; on a filled window with average loss 0
and average gain positive the RSI is exactly 100; but with average loss 0
and average gain 0 (a flat window) it is NaN, not 100. -/
theorem rsi_bounds (closes : List ℚ) (i : ℕ) :
    (∀ q : ℚ, (rsiSeries 14 closes).getD i PF.nan = PF.val q → 0 ≤ q ∧ q ≤ 100) ∧
    (avgGainAt closes i = PF.val 0 → avgLossAt closes i = PF.val 0 →
      (rsiSeries 14 closes).getD i PF.nan = PF.nan) ∧
    (∀ g : ℚ, avgGainAt closes i = PF.val g → 0 < g →
      avgLossAt closes i = PF.val 0 →
      (rsiSeries 14 closes).getD i PF.nan = PF.val 100) := by
  refine ⟨?_, ?_, ?_⟩
  · intro q hq
    rcases lt_or_le i closes.length with hi | hi
    · rw [rsiSeries_getD_lt closes i hi] at hq
      rcases rollingMean_nonneg 14 (gainsOf closes) i (gainsOf_nonneg closes) with
        hgn | ⟨g, hg, hg0⟩
      · rw [avgGainAt] at hq
        rw [hgn, rsiFromAvgs_nan_left] at hq
        exact PF.noConfusion hq
      · rcases rollingMean_nonneg 14 (lossesOf closes) i (lossesOf_nonneg closes) with
          hln | ⟨l, hl, hl0⟩
        · rw [avgGainAt, avgLossAt] at hq
          rw [hg, hln, rsiFromAvgs_nan_right] at hq
          exact PF.noConfusion hq
        · rw [avgGainAt, avgLossAt] at hq
          rw [hg, hl] at hq
          rcases hl0.eq_or_lt with hl0' | hl0'
          · rcases hg0.eq_or_lt with hg0' | hg0'
            · rw [← hl0', ← hg0', rsiFromAvgs_zero_zero] at hq
              exact PF.noConfusion hq
            · rw [← hl0', rsiFromAvgs_pos_zero g hg0'] at hq
              cases hq
              norm_num
          · obtain ⟨q2, heq, hq0, hq100⟩ := rsiFromAvgs_val_pos g l hg0 hl0'
            rw [heq] at hq
            cases hq
            exact ⟨hq0, hq100⟩
    · rw [rsiSeries_getD_ge closes i hi] at hq
      exact PF.noConfusion hq
  · intro hg hl
    have hi := avgGainAt_lt_of_val closes i 0 hg
    rw [rsiSeries_getD_lt closes i hi, hg, hl, rsiFromAvgs_zero_zero]
  · intro g hg hgpos hl
    have hi := avgGainAt_lt_of_val closes i g hg
    rw [rsiSeries_getD_lt closes i hi, hg, hl, rsiFromAvgs_pos_zero g hgpos]

/-- Claim C4, witness: the alternating series `closesW`, whose filled RSI
window gives exactly 50, and the interval bound applied to it. -/
theorem rsi_bounds_wit : (0 : ℚ) ≤ 50 ∧ (50 : ℚ) ≤ 100 :=
  (rsi_bounds closesW 14).1 50 (by with_unfolding_all decide)

/-- Claim C6: the Volatility Context Provider agrees with `get_vix_info` on
level and delta; with 0 or 1 bars (a failed fetch included) it yields the
default context (20.0, 0.0, Unknown); with at least 2 bars the level is the
last close and the delta the difference of the last two closes. -/
theorem vix_context_default_and_delta (vixData : Option (List ℚ)) :
    ((volatilityContext vixData).level = (get_vix_info vixData).1 ∧
     (volatilityContext vixData).delta = (get_vix_info vixData).2) ∧
    ((vixData.getD []).length < 2 →
      volatilityContext vixData = ⟨20, 0, RiskLabel.unknown⟩) ∧
    (∀ closes : List ℚ, vixData = some closes → 2 ≤ closes.length →
      (volatilityContext vixData).level = closes.getD (closes.length - 1) 0 ∧
      (volatilityContext vixData).delta =
        closes.getD (closes.length - 1) 0 - closes.getD (closes.length - 2) 0) := by
  match vixData with
  | none =>
      exact ⟨⟨rfl, rfl⟩, fun _ => rfl, fun closes hc => Option.noConfusion hc⟩
  | some closes =>
      by_cases h2 : closes.length < 2
      · refine ⟨?_, fun _ => ?_, fun cl hcl hlen => ?_⟩
        · simp [volatilityContext, get_vix_info, h2]
        · simp [volatilityContext, h2]
        · cases hcl
          exact absurd hlen (by omega)
      · refine ⟨?_, fun hd => ?_, fun cl hcl hlen => ?_⟩
        · simp [volatilityContext, get_vix_info, h2]
        · exact absurd hd h2
        · cases hcl
          simp [volatilityContext, h2]

/-- Claim C6, witness: a one-bar series yields the default context, a
two-bar series [25, 26] yields level 26 and delta 1. -/
theorem vix_context_default_and_delta_wit :
    volatilityContext (some [25]) = ⟨20, 0, RiskLabel.unknown⟩ ∧
    (volatilityContext (some [25, 26])).level = 26 ∧
    (volatilityContext (some [25, 26])).delta = 1 := by
  refine ⟨(vix_context_default_and_delta (some [25])).2.1 (by decide), ?_, ?_⟩
  · rw [((vix_context_default_and_delta (some [25, 26])).2.2 [25, 26] rfl (by decide)).1]
    with_unfolding_all rfl
  · rw [((vix_context_default_and_delta (some [25, 26])).2.2 [25, 26] rfl (by decide)).2]
    with_unfolding_all rfl

/-- The proximity classification, characterised in both directions:
NearResistance exactly on the resistance band, NearSupport exactly on the
support band outside the resistance band (resistance has priority when both
trigger), NoProx exactly outside both bands. -/
theorem proximityOf_iff (price r1 s1 : ℚ) :
    (proximityOf price r1 s1 = Proximity.nearResistance ↔
      r1 * (995 / 1000) ≤ price) ∧
    (proximityOf price r1 s1 = Proximity.nearSupport ↔
      price ≤ s1 * (1005 / 1000) ∧ price < r1 * (995 / 1000)) ∧
    (proximityOf price r1 s1 = Proximity.noProx ↔
      s1 * (1005 / 1000) < price ∧ price < r1 * (995 / 1000)) := by
  by_cases hP : r1 * (995 / 1000) ≤ price <;>
    by_cases hQ : price ≤ s1 * (1005 / 1000) <;>
      simp [proximityOf, hP, hQ, ← not_le]

/-- Claim C8 (spec-modelled): the pivot levels satisfy the stated formulas;
proximity to them is NearResistance iff price ≥ resistance1 times 0.995 (in
particular also when the support band triggers: resistance has priority),
NearSupport iff price ≤ support1 times 1.005 while outside the resistance
band, and no event otherwise; and every price inside the resistance band
yields Warning under the precedence rules with no crossover and RSI 50, for
every spike flag, rising-risk threshold and volatility delta. -/
theorem pivot_proximity_warning (sessionHigh sessionLow lastClose price θ delta : ℚ)
    (spike : Bool) :
    (pivotLevelsOf sessionHigh sessionLow lastClose).pivot =
      (sessionHigh + sessionLow + lastClose) / 3 ∧
    (pivotLevelsOf sessionHigh sessionLow lastClose).resistance1 =
      2 * (pivotLevelsOf sessionHigh sessionLow lastClose).pivot - sessionLow ∧
    (pivotLevelsOf sessionHigh sessionLow lastClose).support1 =
      2 * (pivotLevelsOf sessionHigh sessionLow lastClose).pivot - sessionHigh ∧
    (proximityOf price (pivotLevelsOf sessionHigh sessionLow lastClose).resistance1
        (pivotLevelsOf sessionHigh sessionLow lastClose).support1 =
        Proximity.nearResistance ↔
      (pivotLevelsOf sessionHigh sessionLow lastClose).resistance1 * (995 / 1000) ≤ price) ∧
    (proximityOf price (pivotLevelsOf sessionHigh sessionLow lastClose).resistance1
        (pivotLevelsOf sessionHigh sessionLow lastClose).support1 =
        Proximity.nearSupport ↔
      price ≤ (pivotLevelsOf sessionHigh sessionLow lastClose).support1 * (1005 / 1000) ∧
      price < (pivotLevelsOf sessionHigh sessionLow lastClose).resistance1 * (995 / 1000)) ∧
    (proximityOf price (pivotLevelsOf sessionHigh sessionLow lastClose).resistance1
        (pivotLevelsOf sessionHigh sessionLow lastClose).support1 =
        Proximity.noProx ↔
      (pivotLevelsOf sessionHigh sessionLow lastClose).support1 * (1005 / 1000) < price ∧
      price < (pivotLevelsOf sessionHigh sessionLow lastClose).resistance1 * (995 / 1000)) ∧
    ((pivotLevelsOf sessionHigh sessionLow lastClose).resistance1 * (995 / 1000) ≤ price →
      specAlertLevel θ Crossover.none delta (rsiExtremeOf 50)
        (proximityOf price (pivotLevelsOf sessionHigh sessionLow lastClose).resistance1
          (pivotLevelsOf sessionHigh sessionLow lastClose).support1) spike =
        SpecAlert.warning) := by
  obtain ⟨hres, hsup, hno⟩ := proximityOf_iff price
    (pivotLevelsOf sessionHigh sessionLow lastClose).resistance1
    (pivotLevelsOf sessionHigh sessionLow lastClose).support1
  refine ⟨rfl, rfl, rfl, hres, hsup, hno, fun hin => ?_⟩
  rw [hres.mpr hin]
  norm_num [specAlertLevel, rsiExtremeOf]

/-- Claim C8, witness: a degenerate flat session at 100, whose resistance1
is 100; the price 100 sits inside the band, classifies NearResistance and
yields Warning. -/
theorem pivot_proximity_warning_wit :
    proximityOf 100 (pivotLevelsOf 100 100 100).resistance1
      (pivotLevelsOf 100 100 100).support1 = Proximity.nearResistance ∧
    specAlertLevel (1 / 2) Crossover.none 0 (rsiExtremeOf 50)
      (proximityOf 100 (pivotLevelsOf 100 100 100).resistance1
        (pivotLevelsOf 100 100 100).support1) false = SpecAlert.warning := by
  have h := pivot_proximity_warning 100 100 100 100 (1 / 2) 0 false
  exact ⟨(h.2.2.2.1).mpr (by norm_num [pivotLevelsOf]),
    h.2.2.2.2.2.2 (by norm_num [pivotLevelsOf])⟩

/-- Claim C10: the name `v_chg` is never bound by the program, and so every
refresh cycle stops with the NameError raised by the VIX metric line
(line 110), before any per-symbol result is produced. -/
theorem refresh_loop_name_error :
    programAssignedNames.contains "v_chg" = false ∧
    ∀ (f s : ℕ) (vixData : Option (List ℚ)) (stocks : List (String × Option DF)),
      refreshCycle f s vixData stocks =
        Except.error "NameError: name v_chg is not defined" := by
  constructor
  · with_unfolding_all rfl
  · intro f s vixData stocks
    with_unfolding_all rfl

end TrendV4
